import Mathlib

/-!
Verification of the CV website's client-side logic (src/assets/js/main.js),
shallowly embedded in Lean.  The embedding covers the carousel view-window
logic of `CarouselManager` (movePrev, moveNext, handleResize, updateCarousel,
getItemsPerView), the content-loading logic of `CVWebsite.loadContentData`
(cache, embedded data, JSON fetch, English fallback), and the
language-detection logic of `CVWebsite.getDefaultLanguage`.  JavaScript
numbers are modelled as integers (indices, widths) and exact rationals
(percentage offsets); documents are modelled as opaque string payloads.
-/

/-- State of one carousel instance: the `currentIndex` and `itemsPerView`
fields of `carouselData`, together with `itemCount`, the number of
`.carousel-item` elements in the carousel (fixed per instance and queried
from the DOM by `moveNext` and `updateCarousel`). -/
structure CarouselState where
  currentIndex : Int
  itemsPerView : Int
  itemCount : Int
  deriving DecidableEq, Repr

/-- Embedding of `CarouselManager.getItemsPerView`, as a function of
`window.innerWidth`: 1 below 768, 2 below 1024, else 3. -/
def getItemsPerView (innerWidth : Int) : Int :=
  if innerWidth < 768 then 1
  else if innerWidth < 1024 then 2
  else 3

/-- Embedding of `CarouselManager.movePrev`: decrement `currentIndex` when it
is positive, otherwise do nothing. -/
def movePrev (s : CarouselState) : CarouselState :=
  if s.currentIndex > 0 then { s with currentIndex := s.currentIndex - 1 } else s

/-- Embedding of `CarouselManager.moveNext`: increment `currentIndex` when it
is below `maxIndex = max 0 (itemCount - itemsPerView)`, otherwise do
nothing. -/
def moveNext (s : CarouselState) : CarouselState :=
  let maxIndex := max 0 (s.itemCount - s.itemsPerView)
  if s.currentIndex < maxIndex then { s with currentIndex := s.currentIndex + 1 } else s

/-- Outputs of `CarouselManager.updateCarousel`: the percentage translation
applied to the item strip and the `disabled` flags written to the two
buttons. -/
structure CarouselView where
  translateX : ℚ
  prevDisabled : Bool
  nextDisabled : Bool
  deriving DecidableEq, Repr

/-- Embedding of `CarouselManager.updateCarousel`:
`translateX = -(currentIndex * (100 / itemsPerView))`,
`prevBtn.disabled = currentIndex ≤ 0`,
`nextBtn.disabled = currentIndex ≥ max 0 (itemCount - itemsPerView)`. -/
def updateCarousel (s : CarouselState) : CarouselView :=
  { translateX := -((s.currentIndex : ℚ) * (100 / (s.itemsPerView : ℚ)))
    prevDisabled := decide (s.currentIndex ≤ 0)
    nextDisabled := decide (s.currentIndex ≥ max 0 (s.itemCount - s.itemsPerView)) }

/-- Embedding of `CarouselManager.handleResize`: recompute `itemsPerView`
from the new viewport width; when it changed, store it and reset
`currentIndex` to 0, otherwise leave the state untouched. -/
def handleResize (s : CarouselState) (innerWidth : Int) : CarouselState :=
  let newItemsPerView := getItemsPerView innerWidth
  if newItemsPerView ≠ s.itemsPerView then
    { s with itemsPerView := newItemsPerView, currentIndex := 0 }
  else s

/-- A navigation event: a click on the next or the prev button. -/
inductive NavOp where
  | next
  | prev
  deriving DecidableEq, Repr

/-- Apply one navigation event to a carousel state. -/
def applyOp (s : CarouselState) : NavOp → CarouselState
  | NavOp.next => moveNext s
  | NavOp.prev => movePrev s

/-- Apply a finite sequence of navigation events, left to right. -/
def applyOps (s : CarouselState) : List NavOp → CarouselState
  | [] => s
  | op :: ops => applyOps (applyOp s op) ops

/-- The index-bounds invariant of the view-window state:
`0 ≤ currentIndex ≤ max 0 (itemCount - itemsPerView)`. -/
abbrev InRange (s : CarouselState) : Prop :=
  0 ≤ s.currentIndex ∧ s.currentIndex ≤ max 0 (s.itemCount - s.itemsPerView)

lemma moveNext_inRange (s : CarouselState) (h : InRange s) : InRange (moveNext s) := by
  obtain ⟨h0, h1⟩ := h
  unfold moveNext
  dsimp only
  split
  · refine ⟨?_, ?_⟩
    · show (0 : Int) ≤ s.currentIndex + 1
      omega
    · show s.currentIndex + 1 ≤ max 0 (s.itemCount - s.itemsPerView)
      omega
  · exact ⟨h0, h1⟩

lemma movePrev_inRange (s : CarouselState) (h : InRange s) : InRange (movePrev s) := by
  obtain ⟨h0, h1⟩ := h
  unfold movePrev
  split
  · refine ⟨?_, ?_⟩
    · show (0 : Int) ≤ s.currentIndex - 1
      omega
    · show s.currentIndex - 1 ≤ max 0 (s.itemCount - s.itemsPerView)
      omega
  · exact ⟨h0, h1⟩

/-- C1: for every itemCount ≥ 0 and itemsPerView ≥ 1, starting from a state
with currentIndex in [0, max(0, itemCount - itemsPerView)], after any finite
sequence of moveNext and movePrev operations the state still satisfies
0 ≤ currentIndex ≤ max(0, itemCount - itemsPerView). -/
theorem applyOps_inRange (ops : List NavOp) (s : CarouselState)
    (hc : 0 ≤ s.itemCount) (hv : 1 ≤ s.itemsPerView) (h : InRange s) :
    InRange (applyOps s ops) := by
  induction ops generalizing s with
  | nil => exact h
  | cons op ops ih =>
    have hcount : (applyOp s op).itemCount = s.itemCount := by
      cases op <;> simp only [applyOp, moveNext, movePrev] <;> split <;> rfl
    have hview : (applyOp s op).itemsPerView = s.itemsPerView := by
      cases op <;> simp only [applyOp, moveNext, movePrev] <;> split <;> rfl
    have hinv : InRange (applyOp s op) := by
      cases op
      · exact moveNext_inRange s h
      · exact movePrev_inRange s h
    exact ih (applyOp s op) (hcount ▸ hc) (hview ▸ hv) hinv

/-- Witness for C1 at a concrete state and event sequence. -/
theorem applyOps_inRange_witness :
    InRange (applyOps ⟨0, 3, 7⟩ [NavOp.next, NavOp.next, NavOp.prev]) :=
  applyOps_inRange [NavOp.next, NavOp.next, NavOp.prev] ⟨0, 3, 7⟩
    (by decide) (by decide) (by decide)

/-- C3: for every state with itemCount ≥ 0, itemsPerView ≥ 1 and
currentIndex ≥ 0, moveNext increments currentIndex by exactly 1 when
currentIndex < itemCount - itemsPerView and leaves the state unchanged
otherwise; in particular it is a no-op at the upper bound. -/
theorem moveNext_spec (s : CarouselState) (hc : 0 ≤ s.itemCount)
    (hv : 1 ≤ s.itemsPerView) (hi : 0 ≤ s.currentIndex) :
    (s.currentIndex < s.itemCount - s.itemsPerView →
      moveNext s = { s with currentIndex := s.currentIndex + 1 }) ∧
    (¬ s.currentIndex < s.itemCount - s.itemsPerView → moveNext s = s) := by
  constructor
  · intro h
    have hcond : s.currentIndex < max 0 (s.itemCount - s.itemsPerView) := by omega
    simp [moveNext, hcond]
  · intro h
    have hcond : ¬ s.currentIndex < max 0 (s.itemCount - s.itemsPerView) := by omega
    simp [moveNext, hcond]

/-- Witness for C3: advancing from index 2 with 7 items, 3 per view. -/
theorem moveNext_spec_witness : moveNext ⟨2, 3, 7⟩ = ⟨3, 3, 7⟩ :=
  (moveNext_spec ⟨2, 3, 7⟩ (by decide) (by decide) (by decide)).1 (by decide)

/-- C4: for every state, movePrev decrements currentIndex by exactly 1 when
currentIndex > 0 and leaves the state unchanged otherwise; in particular it
is a no-op at currentIndex = 0. -/
theorem movePrev_spec (s : CarouselState) :
    (0 < s.currentIndex →
      movePrev s = { s with currentIndex := s.currentIndex - 1 }) ∧
    (¬ 0 < s.currentIndex → movePrev s = s) := by
  constructor
  · intro h
    simp [movePrev, h]
  · intro h
    simp [movePrev, h]

/-- Witness for C4: movePrev at currentIndex = 0 is a no-op. -/
theorem movePrev_spec_witness : movePrev ⟨0, 3, 7⟩ = ⟨0, 3, 7⟩ :=
  (movePrev_spec ⟨0, 3, 7⟩).2 (by decide)

/-- C5: handleResize recomputes itemsPerView from the new width; when the
value differs from the stored one it stores it and resets currentIndex to 0,
and when it does not differ it leaves the whole state unchanged. -/
theorem handleResize_spec (s : CarouselState) (w : Int) :
    (getItemsPerView w ≠ s.itemsPerView →
      handleResize s w =
        { s with itemsPerView := getItemsPerView w, currentIndex := 0 }) ∧
    (getItemsPerView w = s.itemsPerView → handleResize s w = s) := by
  constructor
  · intro h
    simp [handleResize, h]
  · intro h
    simp [handleResize, h]

/-- Witness for C5: the scenario of a width transition from 1200
(itemsPerView = 3) to 500 (itemsPerView = 1) at currentIndex = 4, which
resets currentIndex to 0. -/
theorem handleResize_spec_witness :
    getItemsPerView 1200 = 3 ∧ handleResize ⟨4, 3, 7⟩ 500 = ⟨0, 1, 7⟩ :=
  ⟨by decide, (handleResize_spec ⟨4, 3, 7⟩ 500).1 (by decide)⟩

/-- C6: getItemsPerView is a pure function of the viewport width returning 1
below 768, 2 from 768 up to below 1024, and 3 from 1024 on. -/
theorem getItemsPerView_spec (w : Int) :
    (w < 768 → getItemsPerView w = 1) ∧
    (768 ≤ w → w < 1024 → getItemsPerView w = 2) ∧
    (1024 ≤ w → getItemsPerView w = 3) := by
  refine ⟨fun h => ?_, fun h1 h2 => ?_, fun h => ?_⟩
  · simp [getItemsPerView, h]
  · have hn : ¬ w < 768 := by omega
    simp [getItemsPerView, hn, h2]
  · have hn : ¬ w < 768 := by omega
    have hn2 : ¬ w < 1024 := by omega
    simp [getItemsPerView, hn, hn2]

/-- Witness for C6 at one width in each band. -/
theorem getItemsPerView_spec_witness :
    getItemsPerView 500 = 1 ∧ getItemsPerView 800 = 2 ∧ getItemsPerView 1200 = 3 :=
  ⟨(getItemsPerView_spec 500).1 (by decide),
   (getItemsPerView_spec 800).2.1 (by decide) (by decide),
   (getItemsPerView_spec 1200).2.2 (by decide)⟩

/-- C7: for every state with itemCount ≥ 0, itemsPerView ≥ 1 and
currentIndex ≥ 0, the button states computed by updateCarousel give
prevEnabled = (currentIndex > 0) and
nextEnabled = (currentIndex < itemCount - itemsPerView). -/
theorem updateCarousel_controlState (s : CarouselState) (hc : 0 ≤ s.itemCount)
    (hv : 1 ≤ s.itemsPerView) (hi : 0 ≤ s.currentIndex) :
    (!(updateCarousel s).prevDisabled) = decide (0 < s.currentIndex) ∧
    (!(updateCarousel s).nextDisabled) =
      decide (s.currentIndex < s.itemCount - s.itemsPerView) := by
  unfold updateCarousel
  dsimp only
  constructor
  · rw [← decide_not, decide_eq_decide]
    omega
  · rw [← decide_not, decide_eq_decide]
    omega

/-- Witness for C7: with 7 items and 3 per view, moveNext at index 4 stays
at 4 and the next button is reported disabled. -/
theorem updateCarousel_controlState_witness :
    moveNext ⟨4, 3, 7⟩ = ⟨4, 3, 7⟩ ∧
    (!(updateCarousel ⟨4, 3, 7⟩).nextDisabled) = decide ((4 : Int) < 7 - 3) :=
  ⟨by decide, (updateCarousel_controlState ⟨4, 3, 7⟩ (by decide) (by decide) (by decide)).2⟩

/-- C8: for every state, the offset computed by updateCarousel equals
-(currentIndex * (100 / itemsPerView)) percent, as an exact rational. -/
theorem updateCarousel_translateX (s : CarouselState) :
    (updateCarousel s).translateX =
      -((s.currentIndex : ℚ) * (100 / (s.itemsPerView : ℚ))) := rfl

/-- Result of `fetch` of `/assets/data/{language}.json` together with
`response.json()`: `ok data` models a response with `response.ok` true and
body `data`; `notOk` models a completed response with `response.ok` false;
`failed` models a rejected fetch (e.g. a network error), i.e. a thrown
exception reaching the `catch` block. -/
inductive FetchResult where
  | ok (data : String)
  | notOk
  | failed
  deriving DecidableEq, Repr

/-- The environment `CVWebsite.loadContentData` reads from: the embedded
`window.siteData` table and the JSON files served under `/assets/data/`.
Documents are modelled as opaque string payloads. -/
structure SiteEnv where
  siteData : String → Option String
  fetchJson : String → FetchResult

/-- The `contentCache` object, as a key-value list in which later writes
shadow earlier entries. -/
abbrev Cache := List (String × String)

/-- Property lookup on the modelled `contentCache` object. -/
def cacheFind : Cache → String → Option String
  | [], _ => none
  | (k, v) :: rest, key => if key = k then some v else cacheFind rest key

/-- Outcome of one `loadContentData` call: the returned document or the
thrown error, the cache afterwards, and the list of languages for which a
read (embedded lookup / JSON fetch) was attempted, in call order. -/
structure LoadOutcome where
  result : Except String String
  cache : Cache
  reads : List String

/-- Embedding of `CVWebsite.loadContentData`.  The JavaScript method
recurses at most once: the only recursive call passes the fallback language
"en", for which the fallback branch is closed, so the structural `fuel`
argument (instantiated with 2 in `loadContentData`) is never exhausted. -/
def loadContentDataFuel (env : SiteEnv) : Nat → Cache → String → LoadOutcome
  | 0, cache, _ => { result := .error "out of fuel", cache := cache, reads := [] }
  | fuel + 1, cache, language =>
    let cacheKey := "content-" ++ language
    match cacheFind cache cacheKey with
    | some data => { result := .ok data, cache := cache, reads := [] }
    | none =>
      match env.siteData language with
      | some data =>
        { result := .ok data, cache := (cacheKey, data) :: cache, reads := [language] }
      | none =>
        match env.fetchJson language with
        | .ok data =>
          { result := .ok data, cache := (cacheKey, data) :: cache, reads := [language] }
        | .notOk =>
          if language ≠ "en" then
            let r := loadContentDataFuel env fuel cache "en"
            { result := r.result, cache := r.cache, reads := language :: r.reads }
          else
            { result := .error ("No data available for language: " ++ language),
              cache := cache, reads := [language] }
        | .failed =>
          { result := .error ("fetch failed for language: " ++ language),
            cache := cache, reads := [language] }

/-- `CVWebsite.loadContentData` proper. -/
def loadContentData (env : SiteEnv) (cache : Cache) (language : String) : LoadOutcome :=
  loadContentDataFuel env 2 cache language

lemma loadContentDataFuel_en_stable (env : SiteEnv) (cache : Cache) (f1 f2 : Nat) :
    loadContentDataFuel env (f1 + 1) cache "en" =
      loadContentDataFuel env (f2 + 1) cache "en" := by
  unfold loadContentDataFuel
  cases cacheFind cache ("content-" ++ "en") with
  | some d => rfl
  | none =>
    cases env.siteData "en" with
    | some d => rfl
    | none =>
      cases env.fetchJson "en" with
      | ok d => rfl
      | notOk => simp
      | failed => rfl

/-- The recursion equation of `loadContentData`, with the fallback call
expressed through `loadContentData` itself. -/
lemma loadContentData_eq (env : SiteEnv) (cache : Cache) (language : String) :
    loadContentData env cache language =
      match cacheFind cache ("content-" ++ language) with
      | some data => { result := .ok data, cache := cache, reads := [] }
      | none =>
        match env.siteData language with
        | some data =>
          { result := .ok data, cache := ("content-" ++ language, data) :: cache,
            reads := [language] }
        | none =>
          match env.fetchJson language with
          | .ok data =>
            { result := .ok data, cache := ("content-" ++ language, data) :: cache,
              reads := [language] }
          | .notOk =>
            if language ≠ "en" then
              let r := loadContentData env cache "en"
              { result := r.result, cache := r.cache, reads := language :: r.reads }
            else
              { result := .error ("No data available for language: " ++ language),
                cache := cache, reads := [language] }
          | .failed =>
            { result := .error ("fetch failed for language: " ++ language),
              cache := cache, reads := [language] } := by
  show loadContentDataFuel env (1 + 1) cache language = _
  unfold loadContentDataFuel
  dsimp only
  cases cacheFind cache ("content-" ++ language) with
  | some d => rfl
  | none =>
    cases env.siteData language with
    | some d => rfl
    | none =>
      cases env.fetchJson language with
      | ok d => rfl
      | failed => rfl
      | notOk =>
        have hstep : loadContentDataFuel env 1 cache "en" = loadContentData env cache "en" :=
          loadContentDataFuel_en_stable env cache 0 1
        by_cases h : language = "en"
        · subst h
          simp
        · rw [if_pos h, if_pos h, hstep]

lemma loadContentData_cacheHit (env : SiteEnv) (cache : Cache) (language d : String)
    (h : cacheFind cache ("content-" ++ language) = some d) :
    loadContentData env cache language = ⟨Except.ok d, cache, []⟩ := by
  rw [loadContentData_eq, h]

lemma loadContentData_embedded (env : SiteEnv) (cache : Cache) (language d : String)
    (hmiss : cacheFind cache ("content-" ++ language) = none)
    (hdata : env.siteData language = some d) :
    loadContentData env cache language =
      ⟨Except.ok d, ("content-" ++ language, d) :: cache, [language]⟩ := by
  rw [loadContentData_eq, hmiss, hdata]

lemma loadContentData_fetchOk (env : SiteEnv) (cache : Cache) (language d : String)
    (hmiss : cacheFind cache ("content-" ++ language) = none)
    (hsite : env.siteData language = none)
    (hfetch : env.fetchJson language = FetchResult.ok d) :
    loadContentData env cache language =
      ⟨Except.ok d, ("content-" ++ language, d) :: cache, [language]⟩ := by
  rw [loadContentData_eq, hmiss, hsite, hfetch]

lemma loadContentData_fallback (env : SiteEnv) (cache : Cache) (language : String)
    (hmiss : cacheFind cache ("content-" ++ language) = none)
    (hsite : env.siteData language = none)
    (hfetch : env.fetchJson language = FetchResult.notOk)
    (hne : language ≠ "en") :
    loadContentData env cache language =
      ⟨(loadContentData env cache "en").result, (loadContentData env cache "en").cache,
        language :: (loadContentData env cache "en").reads⟩ := by
  rw [loadContentData_eq, hmiss, hsite, hfetch, if_pos hne]

lemma loadContentData_en_noData (env : SiteEnv) (cache : Cache)
    (hmiss : cacheFind cache ("content-" ++ "en") = none)
    (hsite : env.siteData "en" = none)
    (hfetch : env.fetchJson "en" = FetchResult.notOk) :
    loadContentData env cache "en" =
      ⟨Except.error ("No data available for language: " ++ "en"), cache, ["en"]⟩ := by
  rw [loadContentData_eq, hmiss, hsite, hfetch,
    if_neg (by decide : ¬ ("en" : String) ≠ "en")]

lemma loadContentData_fetchFailed (env : SiteEnv) (cache : Cache) (language : String)
    (hmiss : cacheFind cache ("content-" ++ language) = none)
    (hsite : env.siteData language = none)
    (hfetch : env.fetchJson language = FetchResult.failed) :
    loadContentData env cache language =
      ⟨Except.error ("fetch failed for language: " ++ language), cache, [language]⟩ := by
  rw [loadContentData_eq, hmiss, hsite, hfetch]

lemma loadContentData_reads_en_le_one (env : SiteEnv) (cache : Cache) :
    (loadContentData env cache "en").reads.length ≤ 1 := by
  rw [loadContentData_eq]
  cases cacheFind cache ("content-" ++ "en") with
  | some d => simp
  | none =>
    cases env.siteData "en" with
    | some d => simp
    | none =>
      cases env.fetchJson "en" with
      | ok d => simp
      | notOk => simp
      | failed => simp

/-- Environment in which only English has a document: `window.siteData` holds
an entry for "en" only, and every JSON fetch completes with a non-ok
response. -/
def envEnOnly : SiteEnv :=
  { siteData := fun l => if l = "en" then some "endoc" else none
    fetchJson := fun _ => FetchResult.notOk }

/-- Environment in which the fetch for "es" throws (is rejected) while the
English document is embedded and available. -/
def envEsThrows : SiteEnv :=
  { siteData := fun l => if l = "en" then some "endoc" else none
    fetchJson := fun l => if l = "es" then FetchResult.failed else FetchResult.notOk }

/-- Counterexample to C2 as stated: in `envEsThrows` the read for "es" fails
(the fetch throws) and "es" is not the fallback language, yet the call does
not retry with "en" (its read list is just ["es"]) and the error escapes to
the caller even though the "en" document is available. -/
theorem loadContentData_retry_counterexample :
    envEsThrows.siteData "en" = some "endoc" ∧
    (loadContentData envEsThrows [] "es").reads = ["es"] ∧
    (loadContentData envEsThrows [] "es").result =
      Except.error ("fetch failed for language: " ++ "es") :=
  ⟨rfl, rfl, rfl⟩

/-- C2 (amended): loading first checks the cache; on a miss it performs one
read (embedded lookup, then JSON fetch); when that read completes without a
document (no embedded entry and a non-ok response) and the language is not
"en", it retries exactly once with "en" (whose own lookup performs at most
one further read); when the fallback also fails, or the language is already
"en", the error is surfaced with no further retry; but when the fetch
throws, the exception is rethrown to the caller without the "en" retry. -/
theorem loadContentData_spec (env : SiteEnv) (cache : Cache) (language : String) :
    (∀ d, cacheFind cache ("content-" ++ language) = some d →
      loadContentData env cache language = ⟨Except.ok d, cache, []⟩)
    ∧ (∀ d, cacheFind cache ("content-" ++ language) = none →
      env.siteData language = some d →
      loadContentData env cache language =
        ⟨Except.ok d, ("content-" ++ language, d) :: cache, [language]⟩)
    ∧ (∀ d, cacheFind cache ("content-" ++ language) = none →
      env.siteData language = none → env.fetchJson language = FetchResult.ok d →
      loadContentData env cache language =
        ⟨Except.ok d, ("content-" ++ language, d) :: cache, [language]⟩)
    ∧ (cacheFind cache ("content-" ++ language) = none →
      env.siteData language = none → env.fetchJson language = FetchResult.notOk →
      language ≠ "en" →
      loadContentData env cache language =
        ⟨(loadContentData env cache "en").result, (loadContentData env cache "en").cache,
          language :: (loadContentData env cache "en").reads⟩
        ∧ (loadContentData env cache "en").reads.length ≤ 1)
    ∧ (cacheFind cache ("content-" ++ "en") = none →
      env.siteData "en" = none → env.fetchJson "en" = FetchResult.notOk →
      loadContentData env cache "en" =
        ⟨Except.error ("No data available for language: " ++ "en"), cache, ["en"]⟩)
    ∧ (cacheFind cache ("content-" ++ language) = none →
      env.siteData language = none → env.fetchJson language = FetchResult.failed →
      loadContentData env cache language =
        ⟨Except.error ("fetch failed for language: " ++ language), cache, [language]⟩) :=
  ⟨fun d h => loadContentData_cacheHit env cache language d h,
    fun d h1 h2 => loadContentData_embedded env cache language d h1 h2,
    fun d h1 h2 h3 => loadContentData_fetchOk env cache language d h1 h2 h3,
    fun h1 h2 h3 h4 => ⟨loadContentData_fallback env cache language h1 h2 h3 h4,
      loadContentData_reads_en_le_one env cache⟩,
    fun h1 h2 h3 => loadContentData_en_noData env cache h1 h2 h3,
    fun h1 h2 h3 => loadContentData_fetchFailed env cache language h1 h2 h3⟩

/-- Witness for C2: the spec scenario in which "es" has no document and the
embedded "en" data succeeds; the "en" document is returned, no error
escapes, and the reads are exactly ["es", "en"]. -/
theorem loadContentData_spec_witness :
    loadContentData envEnOnly [] "es" =
      ⟨Except.ok "endoc", [("content-" ++ "en", "endoc")], ["es", "en"]⟩ := by
  have h := (loadContentData_spec envEnOnly [] "es").2.2.2.1 rfl rfl rfl (by decide)
  rw [h.1]
  rfl

/-- Counterexample to C9 as stated: in `envEnOnly`, `loadContentData` for
"es" returns the English document (via the fallback), but the document is
cached under "content-en" only, so the subsequent call for "es" is not a
cache hit: it performs a new read attempt for "es" (its read list is
nonempty) before returning the same document from the "en" cache entry. -/
theorem loadContentData_cache_counterexample :
    (loadContentData envEnOnly [] "es").result = Except.ok "endoc" ∧
    (loadContentData envEnOnly (loadContentData envEnOnly [] "es").cache "es").reads ≠ [] ∧
    (loadContentData envEnOnly (loadContentData envEnOnly [] "es").cache "es").result =
      Except.ok "endoc" :=
  ⟨rfl, by decide, rfl⟩

/-- C9 (amended): after a call to loadContentData(L) returns a document,
every subsequent loadContentData(L) returns that same document; it does so
via a cache hit with no new read exactly when the document ended up cached
under the key of L itself (which happens when the first call succeeded
without the "en" fallback), the cache then being left unchanged. -/
theorem loadContentData_cache_spec (env : SiteEnv) (cache : Cache) (language d : String) :
    ((loadContentData env cache language).result = Except.ok d →
      (loadContentData env (loadContentData env cache language).cache language).result =
        Except.ok d)
    ∧ (cacheFind (loadContentData env cache language).cache ("content-" ++ language) = some d →
      loadContentData env (loadContentData env cache language).cache language =
        ⟨Except.ok d, (loadContentData env cache language).cache, []⟩) := by
  constructor
  · intro h
    cases hfind : cacheFind cache ("content-" ++ language) with
    | some d0 =>
      have h1 := loadContentData_cacheHit env cache language d0 hfind
      have hd : d0 = d := by
        rw [h1] at h
        exact Except.ok.inj h
      subst hd
      rw [h1]
      show (loadContentData env cache language).result = Except.ok d0
      rw [h1]
    | none =>
      cases hsite : env.siteData language with
      | some d0 =>
        have h1 := loadContentData_embedded env cache language d0 hfind hsite
        have hd : d0 = d := by
          rw [h1] at h
          exact Except.ok.inj h
        subst hd
        rw [h1]
        show (loadContentData env (("content-" ++ language, d0) :: cache) language).result =
          Except.ok d0
        have hhit : cacheFind (("content-" ++ language, d0) :: cache)
            ("content-" ++ language) = some d0 := by
          simp [cacheFind]
        rw [loadContentData_cacheHit env _ language d0 hhit]
      | none =>
        cases hfetch : env.fetchJson language with
        | ok d0 =>
          have h1 := loadContentData_fetchOk env cache language d0 hfind hsite hfetch
          have hd : d0 = d := by
            rw [h1] at h
            exact Except.ok.inj h
          subst hd
          rw [h1]
          show (loadContentData env (("content-" ++ language, d0) :: cache) language).result =
            Except.ok d0
          have hhit : cacheFind (("content-" ++ language, d0) :: cache)
              ("content-" ++ language) = some d0 := by
            simp [cacheFind]
          rw [loadContentData_cacheHit env _ language d0 hhit]
        | failed =>
          have h1 := loadContentData_fetchFailed env cache language hfind hsite hfetch
          rw [h1] at h
          simp at h
        | notOk =>
          by_cases hlang : language = "en"
          · subst hlang
            have h1 := loadContentData_en_noData env cache hfind hsite hfetch
            rw [h1] at h
            simp at h
          · have h1 := loadContentData_fallback env cache language hfind hsite hfetch hlang
            replace h : (loadContentData env cache "en").result = Except.ok d := by
              rw [h1] at h
              exact h
            rw [h1]
            show (loadContentData env (loadContentData env cache "en").cache language).result =
              Except.ok d
            cases hfind2 : cacheFind cache ("content-" ++ "en") with
            | some e0 =>
              have h2 := loadContentData_cacheHit env cache "en" e0 hfind2
              have hd : e0 = d := by
                rw [h2] at h
                exact Except.ok.inj h
              subst hd
              rw [h2]
              show (loadContentData env cache language).result = Except.ok e0
              rw [loadContentData_fallback env cache language hfind hsite hfetch hlang]
              show (loadContentData env cache "en").result = Except.ok e0
              rw [h2]
            | none =>
              cases hsite2 : env.siteData "en" with
              | some e0 =>
                have h2 := loadContentData_embedded env cache "en" e0 hfind2 hsite2
                have hd : e0 = d := by
                  rw [h2] at h
                  exact Except.ok.inj h
                subst hd
                rw [h2]
                show (loadContentData env (("content-" ++ "en", e0) :: cache) language).result =
                  Except.ok e0
                by_cases hkey : ("content-" ++ language) = "content-en"
                · have hhit : cacheFind (("content-" ++ "en", e0) :: cache)
                      ("content-" ++ language) = some e0 := by
                    simp [cacheFind, hkey]
                  rw [loadContentData_cacheHit env _ language e0 hhit]
                · have hmiss2 : cacheFind (("content-" ++ "en", e0) :: cache)
                      ("content-" ++ language) = none := by
                    simp [cacheFind, hkey, hfind]
                  rw [loadContentData_fallback env _ language hmiss2 hsite hfetch hlang]
                  show (loadContentData env (("content-" ++ "en", e0) :: cache) "en").result =
                    Except.ok e0
                  have hhit : cacheFind (("content-" ++ "en", e0) :: cache)
                      ("content-" ++ "en") = some e0 := by
                    simp [cacheFind]
                  rw [loadContentData_cacheHit env _ "en" e0 hhit]
              | none =>
                cases hfetch2 : env.fetchJson "en" with
                | ok e0 =>
                  have h2 := loadContentData_fetchOk env cache "en" e0 hfind2 hsite2 hfetch2
                  have hd : e0 = d := by
                    rw [h2] at h
                    exact Except.ok.inj h
                  subst hd
                  rw [h2]
                  show (loadContentData env (("content-" ++ "en", e0) :: cache) language).result =
                    Except.ok e0
                  by_cases hkey : ("content-" ++ language) = "content-en"
                  · have hhit : cacheFind (("content-" ++ "en", e0) :: cache)
                        ("content-" ++ language) = some e0 := by
                      simp [cacheFind, hkey]
                    rw [loadContentData_cacheHit env _ language e0 hhit]
                  · have hmiss2 : cacheFind (("content-" ++ "en", e0) :: cache)
                        ("content-" ++ language) = none := by
                      simp [cacheFind, hkey, hfind]
                    rw [loadContentData_fallback env _ language hmiss2 hsite hfetch hlang]
                    show (loadContentData env (("content-" ++ "en", e0) :: cache) "en").result =
                      Except.ok e0
                    have hhit : cacheFind (("content-" ++ "en", e0) :: cache)
                        ("content-" ++ "en") = some e0 := by
                      simp [cacheFind]
                    rw [loadContentData_cacheHit env _ "en" e0 hhit]
                | notOk =>
                  have h2 := loadContentData_en_noData env cache hfind2 hsite2 hfetch2
                  rw [h2] at h
                  simp at h
                | failed =>
                  have h2 := loadContentData_fetchFailed env cache "en" hfind2 hsite2 hfetch2
                  rw [h2] at h
                  simp at h
  · intro h
    exact loadContentData_cacheHit env _ language d h

/-- Witness for C9: a first call for "en" in `envEnOnly` returns the English
document, and the subsequent call returns the same document. -/
theorem loadContentData_cache_spec_witness :
    (loadContentData envEnOnly (loadContentData envEnOnly [] "en").cache "en").result =
      Except.ok "endoc" :=
  (loadContentData_cache_spec envEnOnly [] "en" "endoc").1 rfl

/-- The supported language codes checked by `getDefaultLanguage`. -/
def supportedLanguages : List String := ["en", "de", "fr"]

/-- Splitting of a character list at every occurrence of a separator, with
the semantics of the JavaScript `String.prototype.split` with a one-character
separator: the result is never empty, and leading, trailing and adjacent
separators produce empty fragments. -/
def splitChar (sep : Char) : List Char → List (List Char)
  | [] => [[]]
  | c :: rest =>
    let r := splitChar sep rest
    if c = sep then [] :: r
    else
      match r with
      | [] => [[c]]
      | w :: ws => (c :: w) :: ws

/-- JavaScript `s.split(sep)` for a one-character separator. -/
def jsSplit (s : String) (sep : Char) : List String :=
  (splitChar sep s.data).map String.mk

/-- Embedding of `CVWebsite.getDefaultLanguage`.  Inputs: the URL path
(`window.location.pathname`), the stored preference
(`localStorage.getItem` of "cv-language", `none` for null) and the browser
language (`navigator.language`).  Indexing past the end of a JavaScript
split result yields `undefined`, which is never a supported code; it is
modelled by the default value `""`, which is not a supported code either;
likewise a null (or empty, hence falsy) stored preference never passes the
supported-code check. -/
def getDefaultLanguage (path : String) (stored : Option String)
    (browserLanguage : String) : String :=
  let pathLang := (jsSplit path '/').getD 1 ""
  if supportedLanguages.contains pathLang then pathLang
  else
    let storedVal := stored.getD ""
    if supportedLanguages.contains storedVal then storedVal
    else
      let browserLang := (jsSplit browserLanguage '-').getD 0 ""
      if supportedLanguages.contains browserLang then browserLang
      else "en"

/-- C10: getDefaultLanguage always returns one of "en", "de", "fr", and the
sources are consulted in fixed precedence order: the first URL path segment
when it is a supported code, else the stored preference when supported, else
the primary subtag of the browser language when supported, else "en". -/
theorem getDefaultLanguage_spec (path : String) (stored : Option String)
    (browserLanguage : String) :
    getDefaultLanguage path stored browserLanguage ∈ supportedLanguages
    ∧ (supportedLanguages.contains ((jsSplit path '/').getD 1 "") = true →
        getDefaultLanguage path stored browserLanguage = (jsSplit path '/').getD 1 "")
    ∧ (supportedLanguages.contains ((jsSplit path '/').getD 1 "") = false →
        supportedLanguages.contains (stored.getD "") = true →
        getDefaultLanguage path stored browserLanguage = stored.getD "")
    ∧ (supportedLanguages.contains ((jsSplit path '/').getD 1 "") = false →
        supportedLanguages.contains (stored.getD "") = false →
        supportedLanguages.contains ((jsSplit browserLanguage '-').getD 0 "") = true →
        getDefaultLanguage path stored browserLanguage =
          (jsSplit browserLanguage '-').getD 0 "")
    ∧ (supportedLanguages.contains ((jsSplit path '/').getD 1 "") = false →
        supportedLanguages.contains (stored.getD "") = false →
        supportedLanguages.contains ((jsSplit browserLanguage '-').getD 0 "") = false →
        getDefaultLanguage path stored browserLanguage = "en") := by
  refine ⟨?_, fun h1 => ?_, fun h1 h2 => ?_, fun h1 h2 h3 => ?_, fun h1 h2 h3 => ?_⟩
  · unfold getDefaultLanguage
    dsimp only
    split
    · rename_i hv
      exact List.mem_of_elem_eq_true hv
    · split
      · rename_i hv
        exact List.mem_of_elem_eq_true hv
      · split
        · rename_i hv
          exact List.mem_of_elem_eq_true hv
        · simp [supportedLanguages]
  · unfold getDefaultLanguage
    dsimp only
    rw [h1]
    simp
  · unfold getDefaultLanguage
    dsimp only
    rw [h1, h2]
    simp
  · unfold getDefaultLanguage
    dsimp only
    rw [h1, h2, h3]
    simp
  · unfold getDefaultLanguage
    dsimp only
    rw [h1, h2, h3]
    simp

/-- Witness for C10: the URL path segment wins over a stored preference and
the browser locale. -/
theorem getDefaultLanguage_spec_witness :
    getDefaultLanguage "/de/cv" (some "fr") "fr-FR" = "de" :=
  (getDefaultLanguage_spec "/de/cv" (some "fr") "fr-FR").2.1 (by decide)
